import Mathlib

/-!
Verification development for the certificate lifecycle engine of
ssl-cert-server: the per-domain renewal scheduler and OCSP stapling
updater (autocert/renewal.go) and the self-signed certificate
provisioner (package server).

Modelling conventions:
* Instants (Go `time.Time`) and durations (Go `time.Duration`) are
  nanosecond counts carried as `Int`.  Go durations are 64-bit signed
  integers whose arithmetic wraps; `wrap64` makes that explicit.
  `Time.Sub` in Go saturates at the int64 extremes; `timeSub` models that.
* `pseudoRand.int63n(k)` draws are passed in as explicit parameters,
  each accompanied (in theorems) by the hypothesis `0 ≤ n < k`.
* External collaborators (cache get/put, ACME issuance, OCSP fetch,
  certificate parsing) are passed in as outcome parameters, so a theorem
  quantifies over every result they may produce.
-/

def i64min : Int := -9223372036854775808

def i64max : Int := 9223372036854775807

/-- Two's-complement wrap of an integer into the int64 range, making Go's
wrapping 64-bit arithmetic explicit. -/
def wrap64 (x : Int) : Int :=
  (x + 9223372036854775808) % 18446744073709551616 - 9223372036854775808

/-- Go `time.Time.Sub`: the true difference of the two instants, saturated
to the int64 duration range. -/
def timeSub (a b : Int) : Int :=
  if a - b < i64min then i64min else if a - b > i64max then i64max else a - b

/-- Nanoseconds in one hour (`time.Hour`). -/
def nanosPerHour : Int := 3600 * 1000000000

/-- renewal.go line 15: `renewJitter` is one hour, the maximum deviation
from the renew-before window. -/
def renewJitter : Int := nanosPerHour

/-- renewal.go lines 113-122: `domainRenewal.next`.  `renewBefore` is the
value of `dr.m.renewBefore()`, `n` the jitter drawn by
`pseudoRand.int63n(int64(renewJitter))`. -/
def domainRenewal.next (renewBefore expiry now n : Int) : Int :=
  let d := wrap64 (timeSub expiry now - renewBefore)
  let d2 := wrap64 (d - n)
  if d2 < 0 then 0 else d2

/-- renewal.go lines 182-191: `ocspUpdater.next`, identical shape with a
fixed 48-hour safety window in place of the renew-before window. -/
def ocspUpdater.next (expiry now n : Int) : Int :=
  let d := wrap64 (timeSub expiry now - 48 * nanosPerHour)
  let d2 := wrap64 (d - n)
  if d2 < 0 then 0 else d2

lemma wrap64_eq_self (x : Int) (h1 : i64min ≤ x) (h2 : x ≤ i64max) :
    wrap64 x = x := by
  unfold wrap64
  unfold i64min at h1
  unfold i64max at h2
  rw [Int.emod_eq_of_lt (by omega) (by omega)]
  omega

lemma timeSub_eq (a b : Int) (h1 : i64min ≤ a - b) (h2 : a - b ≤ i64max) :
    timeSub a b = a - b := by
  unfold timeSub
  unfold i64min at h1 ⊢
  unfold i64max at h2 ⊢
  rw [if_neg (by omega), if_neg (by omega)]

/-- A closed form for `domainRenewal.next` when no saturation or wrap
occurs: `max 0 (expiry - now - renewBefore - n)`. -/
lemma domainRenewal.next_eq (renewBefore expiry now n : Int)
    (hrb : 0 ≤ renewBefore) (hn : 0 ≤ n)
    (hhi : expiry - now ≤ i64max)
    (hlo : i64min ≤ expiry - now - renewBefore - n) :
    domainRenewal.next renewBefore expiry now n =
      max 0 (expiry - now - renewBefore - n) := by
  have hmin : i64min ≤ expiry - now := by unfold i64min at hlo ⊢; omega
  unfold domainRenewal.next
  show (if wrap64 (wrap64 (timeSub expiry now - renewBefore) - n) < 0 then 0
    else wrap64 (wrap64 (timeSub expiry now - renewBefore) - n)) = _
  rw [timeSub_eq expiry now hmin hhi]
  rw [wrap64_eq_self (expiry - now - renewBefore)
    (by unfold i64min at hlo ⊢; omega) (by unfold i64max at hhi ⊢; omega)]
  rw [wrap64_eq_self (expiry - now - renewBefore - n)
    (by unfold i64min at hlo ⊢; omega) (by unfold i64max at hhi ⊢; omega)]
  omega

/-- C3: the claim bounds `next(E)` by
`E - now - renewBefore - jitter ≤ next(E) ≤ E - now - renewBefore` for
every expiry; the upper bound fails as soon as the clamp to zero kicks in,
e.g. for an already-expired certificate. -/
theorem C3_counterexample :
    domainRenewal.next (720 * nanosPerHour) 0 0 0 = 0 ∧
      ¬ domainRenewal.next (720 * nanosPerHour) 0 0 0 ≤ 0 - 0 - 720 * nanosPerHour := by
  constructor
  · decide
  · decide

/-- C3 (amended): `next(E)` is non-negative and lies between the clamped
bounds `max 0 (E - now - renewBefore - jitterCeiling)` and
`max 0 (E - now - renewBefore)`, for every expiry whose distance from now
fits the int64 duration range without saturation or wrap. -/
theorem C3_next_bounds (renewBefore expiry now n : Int)
    (hrb : 0 ≤ renewBefore) (hn0 : 0 ≤ n) (hn1 : n < renewJitter)
    (hhi : expiry - now ≤ i64max)
    (hlo : i64min ≤ expiry - now - renewBefore - n) :
    0 ≤ domainRenewal.next renewBefore expiry now n ∧
      max 0 (expiry - now - renewBefore - renewJitter) ≤
        domainRenewal.next renewBefore expiry now n ∧
      domainRenewal.next renewBefore expiry now n ≤
        max 0 (expiry - now - renewBefore) := by
  rw [domainRenewal.next_eq renewBefore expiry now n hrb hn0 hhi hlo]
  omega

theorem C3_witness :
    (0 : Int) ≤ 720 * nanosPerHour ∧ (0 : Int) ≤ 0 ∧ (0 : Int) < renewJitter ∧
      (1000 * nanosPerHour : Int) - 0 ≤ i64max ∧
      i64min ≤ (1000 * nanosPerHour : Int) - 0 - 720 * nanosPerHour - 0 ∧
      (0 ≤ domainRenewal.next (720 * nanosPerHour) (1000 * nanosPerHour) 0 0 ∧
        max 0 (1000 * nanosPerHour - 0 - 720 * nanosPerHour - renewJitter) ≤
          domainRenewal.next (720 * nanosPerHour) (1000 * nanosPerHour) 0 0 ∧
        domainRenewal.next (720 * nanosPerHour) (1000 * nanosPerHour) 0 0 ≤
          max 0 (1000 * nanosPerHour - 0 - 720 * nanosPerHour)) :=
  ⟨by decide, by decide, by decide, by decide, by decide,
    C3_next_bounds (720 * nanosPerHour) (1000 * nanosPerHour) 0 0
      (by decide) (by decide) (by decide) (by decide) (by decide)⟩

/-! ## The renewal attempt `domainRenewal.do` (renewal.go lines 82-111) -/

/-- Go `error` values as they appear in this engine: the distinguished
`autocert.ErrCacheMiss`, plain message errors, and the wrapping performed
by `fmt.Errorf` calls whose format begins with a fixed tag. -/
inductive GoErr where
  | cacheMiss : GoErr
  | errMsg : String → GoErr
  | selfSignedWrap : GoErr → GoErr
deriving DecidableEq

/-- The parsed leaf certificate, reduced to the one field the scheduler
reads: `NotAfter`, as a nanosecond instant. -/
structure Leaf where
  notAfter : Int
deriving DecidableEq

/-- renewal.go lines 96-100: the `certState` literal built by `do` —
signer key (opaque), DER chain, parsed leaf. -/
structure certState where
  key : Nat
  cert : List (List Nat)
  leaf : Leaf
deriving DecidableEq

/-- Outcomes of the external collaborators consulted by one run of `do`,
plus the two jitter draws made by the `next` calls inside it. -/
structure DoEnv where
  cacheGet : Except GoErr Leaf
  authorizedCert : Except GoErr (List (List Nat) × Leaf)
  tlscert : Except GoErr Nat
  cachePut : Option GoErr
  n1 : Int
  n2 : Int

/-- What one run of `do` returns and does: the interval and error returned
to `renew`, the `certState` installed into `m.state[domain]` (if any), and
whether `authorizedCert` / `cachePut` were reached. -/
structure DoResult where
  next : Int
  err : Option GoErr
  installed : Option certState
  issuanceCalled : Bool
  cachePutCalled : Bool
deriving DecidableEq

/-- renewal.go lines 92-110: the tail of `do` from the `authorizedCert`
call on.  Line 105 calls `cachePut` and discards both of its results, so
`env.cachePut` does not influence the outcome — only `cachePutCalled`
records that the call happened. -/
def domainRenewal.doIssue (renewBefore now : Int) (key : Nat) (env : DoEnv) : DoResult :=
  match env.authorizedCert with
  | .error e =>
    { next := 0, err := some e, installed := none,
      issuanceCalled := true, cachePutCalled := false }
  | .ok (der, leaf) =>
    let state : certState := { key := key, cert := der, leaf := leaf }
    match env.tlscert with
    | .error e =>
      { next := 0, err := some e, installed := none,
        issuanceCalled := true, cachePutCalled := false }
    | .ok _ =>
      { next := domainRenewal.next renewBefore leaf.notAfter now env.n2,
        err := none, installed := some state,
        issuanceCalled := true, cachePutCalled := true }

/-- renewal.go lines 82-111: `domainRenewal.do`.  Lines 85-90 short-circuit
when the freshly re-read cached certificate is comfortably beyond the
renewal threshold; otherwise control falls through to issuance. -/
def domainRenewal.doAttempt (renewBefore now : Int) (key : Nat) (env : DoEnv) : DoResult :=
  match env.cacheGet with
  | .ok tlscert =>
    let nx := domainRenewal.next renewBefore tlscert.notAfter now env.n1
    if nx > wrap64 (renewBefore + renewJitter) then
      { next := nx, err := none, installed := none,
        issuanceCalled := false, cachePutCalled := false }
    else
      domainRenewal.doIssue renewBefore now key env
  | .error _ => domainRenewal.doIssue renewBefore now key env

/-- Environment exhibiting C1's failure: the cache is empty, issuance and
certificate construction succeed, and persisting to the cache fails. -/
def envPutFails : DoEnv :=
  { cacheGet := .error GoErr.cacheMiss
    authorizedCert := .ok ([[1]], { notAfter := 0 })
    tlscert := .ok 0
    cachePut := some (GoErr.errMsg "store unreachable")
    n1 := 0, n2 := 0 }

/-- C1: the claim says a failed cache write aborts the acquisition — error
surfaced, no state installed.  At a concrete input where `cachePut` fails
the code returns a nil error and installs the new state anyway, because
line 105 discards the result of `cachePut`. -/
theorem C1_counterexample :
    envPutFails.cachePut = some (GoErr.errMsg "store unreachable") ∧
      (domainRenewal.doAttempt (720 * nanosPerHour) 0 0 envPutFails).err = none ∧
      (domainRenewal.doAttempt (720 * nanosPerHour) 0 0 envPutFails).installed =
        some { key := 0, cert := [[1]], leaf := { notAfter := 0 } } ∧
      (domainRenewal.doAttempt (720 * nanosPerHour) 0 0 envPutFails).cachePutCalled = true := by
  refine ⟨rfl, ?_, ?_, ?_⟩ <;> decide

/-- C1 (amended): a failure to persist the freshly issued certificate is
ignored by `do`: when the cached certificate is due and issuance and
certificate construction succeed, the attempt installs the new state into
the Manager's map and returns the next interval with a nil error,
regardless of the `cachePut` outcome. -/
theorem C1_put_failure_ignored (renewBefore now : Int) (key : Nat) (env : DoEnv)
    (leafC : Leaf) (der : List (List Nat)) (leaf : Leaf) (t : Nat) (e : GoErr)
    (hget : env.cacheGet = .ok leafC)
    (hdue : ¬ domainRenewal.next renewBefore leafC.notAfter now env.n1 >
      wrap64 (renewBefore + renewJitter))
    (hauth : env.authorizedCert = .ok (der, leaf))
    (htls : env.tlscert = .ok t)
    (_hput : env.cachePut = some e) :
    (domainRenewal.doAttempt renewBefore now key env).err = none ∧
      (domainRenewal.doAttempt renewBefore now key env).installed =
        some { key := key, cert := der, leaf := leaf } ∧
      (domainRenewal.doAttempt renewBefore now key env).next =
        domainRenewal.next renewBefore leaf.notAfter now env.n2 ∧
      (domainRenewal.doAttempt renewBefore now key env).cachePutCalled = true := by
  unfold domainRenewal.doAttempt
  rw [hget]
  simp only [if_neg hdue]
  unfold domainRenewal.doIssue
  rw [hauth, htls]
  exact ⟨rfl, rfl, rfl, rfl⟩

/-- Environment exhibiting the due-but-stale-check gap of C2: the cached
certificate still has slightly more than renewBefore + jitter validity. -/
def envBarelyFresh : DoEnv :=
  { cacheGet := .ok { notAfter := 720 * 3600 * 1000000000 + 3600 * 1000000000 + 2 }
    authorizedCert := .error (GoErr.errMsg "issuance reached")
    tlscert := .error (GoErr.errMsg "unreached")
    cachePut := none
    n1 := 0, n2 := 0 }

/-- C2: the claim says remaining validity greater than
`renewBefore + jitterCeiling` suffices to skip issuance.  With a 720-hour
renew-before window and a cached certificate of remaining validity
`renewBefore + jitter + 2ns`, the guard `next > renewBefore + jitter`
fails and `do` does call issuance. -/
theorem C2_counterexample :
    (720 * 3600 * 1000000000 + 3600 * 1000000000 + 2 : Int) - 0 >
        720 * nanosPerHour + renewJitter ∧
      (domainRenewal.doAttempt (720 * nanosPerHour) 0 0 envBarelyFresh).issuanceCalled = true := by
  constructor
  · decide
  · decide

/-- C2 (amended): if the cached certificate's remaining validity is at
least `2 * renewBeforeWindow + 2 * jitterCeiling`, the attempt performs no
issuance call and returns the recomputed remaining interval
(`remaining - renewBefore - jitter drawn`). -/
theorem C2_short_circuit (renewBefore now : Int) (key : Nat) (env : DoEnv) (leafC : Leaf)
    (hget : env.cacheGet = .ok leafC)
    (hrb : 0 ≤ renewBefore)
    (hrbmax : renewBefore + renewJitter ≤ i64max)
    (hn0 : 0 ≤ env.n1) (hn1 : env.n1 < renewJitter)
    (hfresh : 2 * renewBefore + 2 * renewJitter ≤ leafC.notAfter - now)
    (hhi : leafC.notAfter - now ≤ i64max) :
    (domainRenewal.doAttempt renewBefore now key env).issuanceCalled = false ∧
      (domainRenewal.doAttempt renewBefore now key env).err = none ∧
      (domainRenewal.doAttempt renewBefore now key env).next =
        leafC.notAfter - now - renewBefore - env.n1 := by
  have hj : (0 : Int) < renewJitter := by decide
  have hlo : i64min ≤ leafC.notAfter - now - renewBefore - env.n1 := by
    unfold i64min
    unfold i64max at hrbmax
    omega
  have hnext : domainRenewal.next renewBefore leafC.notAfter now env.n1 =
      leafC.notAfter - now - renewBefore - env.n1 := by
    rw [domainRenewal.next_eq renewBefore leafC.notAfter now env.n1 hrb hn0 hhi hlo]
    omega
  have hgt : domainRenewal.next renewBefore leafC.notAfter now env.n1 >
      wrap64 (renewBefore + renewJitter) := by
    rw [hnext, wrap64_eq_self (renewBefore + renewJitter)
      (by unfold i64min; omega) hrbmax]
    omega
  unfold domainRenewal.doAttempt
  rw [hget]
  simp only [if_pos hgt]
  exact ⟨trivial, trivial, hnext⟩

/-- A cached certificate that is due for renewal, issuance succeeding,
persistence failing: the witness scenario for the amended C1. -/
def envDuePutFails : DoEnv :=
  { cacheGet := .ok { notAfter := 0 }
    authorizedCert := .ok ([[1]], { notAfter := 2000 * 3600 * 1000000000 })
    tlscert := .ok 0
    cachePut := some (GoErr.errMsg "store unreachable")
    n1 := 0, n2 := 0 }

theorem C1_witness :
    envDuePutFails.cacheGet = .ok { notAfter := 0 } ∧
      ¬ domainRenewal.next (720 * nanosPerHour) (0 : Int) 0 envDuePutFails.n1 >
        wrap64 (720 * nanosPerHour + renewJitter) ∧
      envDuePutFails.authorizedCert = .ok ([[1]], { notAfter := 2000 * 3600 * 1000000000 }) ∧
      envDuePutFails.tlscert = .ok 0 ∧
      envDuePutFails.cachePut = some (GoErr.errMsg "store unreachable") ∧
      ((domainRenewal.doAttempt (720 * nanosPerHour) 0 0 envDuePutFails).err = none ∧
        (domainRenewal.doAttempt (720 * nanosPerHour) 0 0 envDuePutFails).installed =
          some { key := 0, cert := [[1]], leaf := { notAfter := 2000 * 3600 * 1000000000 } } ∧
        (domainRenewal.doAttempt (720 * nanosPerHour) 0 0 envDuePutFails).next =
          domainRenewal.next (720 * nanosPerHour) (2000 * 3600 * 1000000000) 0
            envDuePutFails.n2 ∧
        (domainRenewal.doAttempt (720 * nanosPerHour) 0 0 envDuePutFails).cachePutCalled = true) :=
  ⟨rfl, by decide, rfl, rfl, rfl,
    C1_put_failure_ignored (720 * nanosPerHour) 0 0 envDuePutFails
      { notAfter := 0 } [[1]] { notAfter := 2000 * 3600 * 1000000000 } 0
      (GoErr.errMsg "store unreachable") rfl (by decide) rfl rfl rfl⟩

/-- A cached certificate with 2000 hours of remaining validity against a
720-hour renew-before window: the witness scenario for the amended C2. -/
def envVeryFresh : DoEnv :=
  { cacheGet := .ok { notAfter := 2000 * 3600 * 1000000000 }
    authorizedCert := .error (GoErr.errMsg "issuance must not be reached")
    tlscert := .error (GoErr.errMsg "unreached")
    cachePut := none
    n1 := 0, n2 := 0 }

theorem C2_witness :
    envVeryFresh.cacheGet = .ok { notAfter := 2000 * 3600 * 1000000000 } ∧
      (0 : Int) ≤ 720 * nanosPerHour ∧
      (720 * nanosPerHour : Int) + renewJitter ≤ i64max ∧
      (0 : Int) ≤ envVeryFresh.n1 ∧ envVeryFresh.n1 < renewJitter ∧
      2 * (720 * nanosPerHour) + 2 * renewJitter ≤
        (2000 * 3600 * 1000000000 : Int) - 0 ∧
      (2000 * 3600 * 1000000000 : Int) - 0 ≤ i64max ∧
      ((domainRenewal.doAttempt (720 * nanosPerHour) 0 0 envVeryFresh).issuanceCalled = false ∧
        (domainRenewal.doAttempt (720 * nanosPerHour) 0 0 envVeryFresh).err = none ∧
        (domainRenewal.doAttempt (720 * nanosPerHour) 0 0 envVeryFresh).next =
          (2000 * 3600 * 1000000000 : Int) - 0 - 720 * nanosPerHour - envVeryFresh.n1) :=
  ⟨rfl, by decide, by decide, by decide, by decide, by decide, by decide,
    C2_short_circuit (720 * nanosPerHour) 0 0 envVeryFresh
      { notAfter := 2000 * 3600 * 1000000000 } rfl (by decide) (by decide)
      (by decide) (by decide) (by decide) (by decide)⟩

/-! ## Timer state machines: start / stop / renew / update
(renewal.go lines 32-72 and 134-180) -/

/-- The per-object timer slot guarded by `timerMu`, together with a count
of `time.AfterFunc` calls (timers created).  `timer = some d` is the armed
state with a pending single-shot timer of `d` nanoseconds; `none` is idle.
Because every start/stop/callback body runs entirely under `timerMu`,
concurrent executions serialize and are modelled as sequences of these
atomic state transformers. -/
structure TimerState where
  timer : Option Int
  created : Nat
deriving DecidableEq

/-- renewal.go lines 32-39: `domainRenewal.start`. -/
def domainRenewal.start (renewBefore exp now n : Int) (s : TimerState) : TimerState :=
  match s.timer with
  | some _ => s
  | none =>
    { timer := some (domainRenewal.next renewBefore exp now n), created := s.created + 1 }

/-- renewal.go lines 43-51: `domainRenewal.stop`. -/
def domainRenewal.stop (s : TimerState) : TimerState :=
  match s.timer with
  | none => s
  | some _ => { s with timer := none }

/-- Inputs of one `renew` callback run: the collaborator outcomes consumed
by `do` and the backoff draw `pseudoRand.int63n(int64(renewJitter/2))`. -/
structure RenewEnv where
  doEnv : DoEnv
  backoffDraw : Int

/-- One `renew` run: the timer state it leaves behind, whether the body
ran (the armed-check passed), and the `do` result if it did. -/
structure RenewOutcome where
  s : TimerState
  bodyRan : Bool
  doResult : Option DoResult

/-- renewal.go lines 55-72: `domainRenewal.renew`.  If the timer slot was
cleared by a concurrent `stop`, exits without rescheduling; otherwise runs
`do` and unconditionally re-arms — with the returned interval on success,
with `renewJitter/2` plus a draw from `[0, renewJitter/2)` on failure. -/
def domainRenewal.renew (renewBefore now : Int) (key : Nat) (env : RenewEnv)
    (s : TimerState) : RenewOutcome :=
  match s.timer with
  | none => { s := s, bodyRan := false, doResult := none }
  | some _ =>
    let r := domainRenewal.doAttempt renewBefore now key env.doEnv
    let nx :=
      match r.err with
      | none => r.next
      | some _ => renewJitter / 2 + env.backoffDraw
    { s := { timer := some nx, created := s.created + 1 }, bodyRan := true,
      doResult := some r }

/-- renewal.go lines 126-131 context: the per-domain OCSP state entry —
leaf, issuer (opaque), staple bytes and next-update instant. -/
structure OCSPState where
  leaf : Leaf
  issuer : Nat
  ocspDER : List Nat
  nextUpdate : Int
deriving DecidableEq

/-- Inputs of one `update` callback run: the `updateOCSPStapling` outcome
(staple DER and the response's NextUpdate instant), the backoff draw, and
the jitter draw of the `ou.next` call made on success. -/
structure UpdateEnv where
  fetch : Except GoErr (List Nat × Int)
  backoffDraw : Int
  n : Int

/-- One `update` run (when it does not fault): timer state left behind,
the mutated OCSP state entry if the fetch succeeded, and whether the body
ran. -/
structure UpdateResult where
  s : TimerState
  newState : Option OCSPState
  bodyRan : Bool
deriving DecidableEq

/-- renewal.go lines 134-141: `ocspUpdater.start`. -/
def ocspUpdater.start (expiry now n : Int) (s : TimerState) : TimerState :=
  match s.timer with
  | some _ => s
  | none => { timer := some (ocspUpdater.next expiry now n), created := s.created + 1 }

/-- renewal.go lines 143-151: `ocspUpdater.stop`. -/
def ocspUpdater.stop (s : TimerState) : TimerState :=
  match s.timer with
  | none => s
  | some _ => { s with timer := none }

/-- renewal.go lines 153-180: `ocspUpdater.update`.  The read
`state, _ := ou.m.ocspStates[ou.domain]` yields the map's zero value — a
nil pointer — when the entry is absent, and the immediately following
`state.leaf` dereference then faults; the fault is `Except.error ()`. -/
def ocspUpdater.update (now : Int) (ocspStates : String → Option OCSPState)
    (domain : String) (env : UpdateEnv) (s : TimerState) : Except Unit UpdateResult :=
  match s.timer with
  | none => .ok { s := s, newState := none, bodyRan := false }
  | some _ =>
    match ocspStates domain with
    | none => .error ()
    | some st =>
      match env.fetch with
      | .error _ =>
        .ok { s := { timer := some (renewJitter / 2 + env.backoffDraw),
                     created := s.created + 1 },
              newState := none, bodyRan := true }
      | .ok (der, nextUpdate) =>
        .ok { s := { timer := some (ocspUpdater.next nextUpdate now env.n),
                     created := s.created + 1 },
              newState := some { st with ocspDER := der, nextUpdate := nextUpdate },
              bodyRan := true }

/-- C8: calling `start` on an already-armed scheduler or updater is a
no-op for every expiry argument: the state — pending timer and
timer-creation count alike — is left exactly as it was. -/
theorem C8_start_idempotent (renewBefore exp now n exp2 now2 n2 t : Int)
    (s : TimerState) (h : s.timer = some t) :
    domainRenewal.start renewBefore exp now n s = s ∧
      ocspUpdater.start exp2 now2 n2 s = s := by
  cases s with
  | mk timer created =>
    cases timer with
    | none => simp at h
    | some u => exact ⟨rfl, rfl⟩

theorem C8_witness :
    ({ timer := some 5, created := 1 } : TimerState).timer = some 5 ∧
      (domainRenewal.start (720 * nanosPerHour) 0 0 0 { timer := some 5, created := 1 } =
          { timer := some 5, created := 1 } ∧
        ocspUpdater.start 0 0 0 { timer := some 5, created := 1 } =
          { timer := some 5, created := 1 }) :=
  ⟨rfl, C8_start_idempotent (720 * nanosPerHour) 0 0 0 0 0 0 5
    { timer := some 5, created := 1 } rfl⟩

/-- C6: a `renew` or `update` callback that finds itself still armed
re-arms a timer whether or not the attempt succeeded, and on failure the
new interval is `renewJitter/2` plus the draw from `[0, renewJitter/2)`. -/
theorem C6_always_reschedules (renewBefore now : Int) (key : Nat) (renv : RenewEnv)
    (s : TimerState) (t : Int) (h : s.timer = some t)
    (now2 : Int) (ocspStates : String → Option OCSPState) (domain : String)
    (uenv : UpdateEnv) (s2 : TimerState) (t2 : Int) (h2 : s2.timer = some t2)
    (st : OCSPState) (hst : ocspStates domain = some st) :
    ((domainRenewal.renew renewBefore now key renv s).s.timer.isSome = true ∧
      (∀ e, (domainRenewal.doAttempt renewBefore now key renv.doEnv).err = some e →
        (domainRenewal.renew renewBefore now key renv s).s.timer =
          some (renewJitter / 2 + renv.backoffDraw))) ∧
      (∃ r, ocspUpdater.update now2 ocspStates domain uenv s2 = .ok r ∧
        r.s.timer.isSome = true ∧
        (∀ e2, uenv.fetch = .error e2 →
          r.s.timer = some (renewJitter / 2 + uenv.backoffDraw))) := by
  constructor
  · cases s with
    | mk timer created =>
      cases timer with
      | none => simp at h
      | some u =>
        unfold domainRenewal.renew
        constructor
        · cases hres : (domainRenewal.doAttempt renewBefore now key renv.doEnv).err with
          | none => simp [hres]
          | some e => simp [hres]
        · intro e hres
          simp [hres]
  · cases s2 with
    | mk timer2 created2 =>
      cases timer2 with
      | none => simp at h2
      | some u2 =>
        unfold ocspUpdater.update
        rw [hst]
        cases hf : uenv.fetch with
        | error e2 =>
          exact ⟨_, rfl, rfl, fun e3 he3 => rfl⟩
        | ok p =>
          refine ⟨_, rfl, rfl, fun e3 he3 => ?_⟩
          exact absurd he3 (by simp)

/-- One concrete OCSP state entry used by witnesses for the updater
claims. -/
def stOCSP : OCSPState :=
  { leaf := { notAfter := 0 }, issuer := 0, ocspDER := [], nextUpdate := 0 }

/-- One concrete updater environment whose OCSP fetch fails. -/
def uenvFetchFails : UpdateEnv :=
  { fetch := .error (GoErr.errMsg "ocsp responder down"), backoffDraw := 7, n := 0 }

/-- One concrete renew environment whose renewal attempt fails. -/
def renvDoFails : RenewEnv :=
  { doEnv :=
      { cacheGet := .error GoErr.cacheMiss
        authorizedCert := .error (GoErr.errMsg "acme down")
        tlscert := .error (GoErr.errMsg "unreached")
        cachePut := none
        n1 := 0, n2 := 0 }
    backoffDraw := 7 }

theorem C6_witness :
    ({ timer := some 5, created := 1 } : TimerState).timer = some 5 ∧
      ({ timer := some 9, created := 2 } : TimerState).timer = some 9 ∧
      (fun d => if d = "a.example" then some stOCSP else none) "a.example" = some stOCSP ∧
      (((domainRenewal.renew (720 * nanosPerHour) 0 0 renvDoFails
            { timer := some 5, created := 1 }).s.timer.isSome = true ∧
        (∀ e, (domainRenewal.doAttempt (720 * nanosPerHour) 0 0 renvDoFails.doEnv).err =
            some e →
          (domainRenewal.renew (720 * nanosPerHour) 0 0 renvDoFails
            { timer := some 5, created := 1 }).s.timer =
            some (renewJitter / 2 + renvDoFails.backoffDraw))) ∧
      (∃ r, ocspUpdater.update 0 (fun d => if d = "a.example" then some stOCSP else none)
          "a.example" uenvFetchFails { timer := some 9, created := 2 } = .ok r ∧
        r.s.timer.isSome = true ∧
        (∀ e2, uenvFetchFails.fetch = .error e2 →
          r.s.timer = some (renewJitter / 2 + uenvFetchFails.backoffDraw)))) :=
  ⟨rfl, rfl, by simp,
    C6_always_reschedules (720 * nanosPerHour) 0 0 renvDoFails
      { timer := some 5, created := 1 } 5 rfl 0
      (fun d => if d = "a.example" then some stOCSP else none) "a.example"
      uenvFetchFails { timer := some 9, created := 2 } 9 rfl stOCSP (by simp)⟩

/-- C10: `update` has the unstated precondition that the Manager's
`ocspStates` map holds an entry for the updater's domain: if the entry is
absent while the timer is armed, the callback faults (nil-pointer
dereference of the zero-value entry) instead of returning or backing
off. -/
theorem C10_update_faults_without_state (now : Int)
    (ocspStates : String → Option OCSPState) (domain : String) (env : UpdateEnv)
    (s : TimerState) (t : Int) (h : s.timer = some t)
    (habs : ocspStates domain = none) :
    ocspUpdater.update now ocspStates domain env s = .error () := by
  cases s with
  | mk timer created =>
    cases timer with
    | none => simp at h
    | some u =>
      unfold ocspUpdater.update
      rw [habs]

theorem C10_witness :
    ({ timer := some 5, created := 1 } : TimerState).timer = some 5 ∧
      (fun _ : String => (none : Option OCSPState)) "a.example" = none ∧
      ocspUpdater.update 0 (fun _ => none) "a.example" uenvFetchFails
        { timer := some 5, created := 1 } = .error () :=
  ⟨rfl, rfl,
    C10_update_faults_without_state 0 (fun _ => none) "a.example" uenvFetchFails
      { timer := some 5, created := 1 } 5 rfl rfl⟩

/-- C7: because `stop` and the callbacks run their whole bodies under
`timerMu`, a concurrent `stop` and timer fire serialize into one of two
orders.  In both orders the timer ends disarmed: a `stop` that precedes
the callback's armed-check makes the callback exit without rescheduling,
and a `stop` that follows the callback cancels the timer the callback
re-armed, so at most the one in-flight fire happens after `stop`. -/
theorem C7_stop_cancellation_race (renewBefore now : Int) (key : Nat) (renv : RenewEnv)
    (s : TimerState) (t : Int) (h : s.timer = some t)
    (now2 : Int) (ocspStates : String → Option OCSPState) (domain : String)
    (uenv : UpdateEnv) (s2 : TimerState) (t2 : Int) (h2 : s2.timer = some t2)
    (st : OCSPState) (hst : ocspStates domain = some st) :
    ((domainRenewal.renew renewBefore now key renv (domainRenewal.stop s)).bodyRan = false ∧
      (domainRenewal.renew renewBefore now key renv (domainRenewal.stop s)).s.timer = none) ∧
      ((domainRenewal.renew renewBefore now key renv s).bodyRan = true ∧
        (domainRenewal.stop (domainRenewal.renew renewBefore now key renv s).s).timer =
          none) ∧
      (∃ r, ocspUpdater.update now2 ocspStates domain uenv (ocspUpdater.stop s2) = .ok r ∧
        r.bodyRan = false ∧ r.s.timer = none) ∧
      (∃ r, ocspUpdater.update now2 ocspStates domain uenv s2 = .ok r ∧
        r.bodyRan = true ∧ (ocspUpdater.stop r.s).timer = none) := by
  obtain ⟨timer, created⟩ := s
  obtain ⟨timer2, created2⟩ := s2
  cases timer with
  | none => simp at h
  | some u =>
    cases timer2 with
    | none => simp at h2
    | some u2 =>
      refine ⟨⟨rfl, rfl⟩, ⟨rfl, rfl⟩, ⟨_, rfl, rfl, rfl⟩, ?_⟩
      unfold ocspUpdater.update
      rw [hst]
      cases hf : uenv.fetch with
      | error e2 => exact ⟨_, rfl, rfl, rfl⟩
      | ok p => exact ⟨_, rfl, rfl, rfl⟩

theorem C7_witness :
    ({ timer := some 5, created := 1 } : TimerState).timer = some 5 ∧
      ({ timer := some 9, created := 2 } : TimerState).timer = some 9 ∧
      (fun d => if d = "a.example" then some stOCSP else none) "a.example" = some stOCSP ∧
      (((domainRenewal.renew (720 * nanosPerHour) 0 0 renvDoFails
            (domainRenewal.stop { timer := some 5, created := 1 })).bodyRan = false ∧
        (domainRenewal.renew (720 * nanosPerHour) 0 0 renvDoFails
            (domainRenewal.stop { timer := some 5, created := 1 })).s.timer = none) ∧
      ((domainRenewal.renew (720 * nanosPerHour) 0 0 renvDoFails
            { timer := some 5, created := 1 }).bodyRan = true ∧
        (domainRenewal.stop (domainRenewal.renew (720 * nanosPerHour) 0 0 renvDoFails
            { timer := some 5, created := 1 }).s).timer = none) ∧
      (∃ r, ocspUpdater.update 0 (fun d => if d = "a.example" then some stOCSP else none)
            "a.example" uenvFetchFails
            (ocspUpdater.stop { timer := some 9, created := 2 }) = .ok r ∧
        r.bodyRan = false ∧ r.s.timer = none) ∧
      (∃ r, ocspUpdater.update 0 (fun d => if d = "a.example" then some stOCSP else none)
            "a.example" uenvFetchFails { timer := some 9, created := 2 } = .ok r ∧
        r.bodyRan = true ∧ (ocspUpdater.stop r.s).timer = none)) :=
  ⟨rfl, rfl, by simp,
    C7_stop_cancellation_race (720 * nanosPerHour) 0 0 renvDoFails
      { timer := some 5, created := 1 } 5 rfl 0
      (fun d => if d = "a.example" then some stOCSP else none) "a.example"
      uenvFetchFails { timer := some 9, created := 2 } 9 rfl stOCSP (by simp)⟩

/-! ## Self-signed provisioner (package server, GetSelfSignedCertificate) -/

/-- The parsed self-signed certificate, identified by its serial number. -/
structure Cert where
  serial : Nat
deriving DecidableEq

/-- The `Cfg.SelfSigned` configuration block consumed by the provisioner. -/
structure SelfSignedConfig where
  enable : Bool
  checkSNI : Bool
  validDays : Int
  organization : List String
  certKey : String
deriving DecidableEq

/-- Modelled from the spec: the key `loadCertificateFromStore` reads from.
The definition of `loadCertificateFromStore` is not among the given source
files; spec §4.2 step 3 has the provisioner "attempt to load prior
material from the Certificate Store under the configured self-signed
cache key", independent of the requested domain. -/
def loadStoreKey (cfg : SelfSignedConfig) (_domain : String) : String := cfg.certKey

/-- Modelled from the spec: `loadCertificateFromStore` itself — only its
caller `GetSelfSignedCertificate` is among the given source files.  Per
spec §4.2 step 3 and §4.1 it performs a store get under the configured
self-signed cache key, reporting the distinguished not-found outcome, and
parses a found blob. -/
def loadCertificateFromStore (cfg : SelfSignedConfig)
    (store : String → Except GoErr (List Nat))
    (parse : List Nat → Option Cert × Option GoErr) (domain : String) :
    Option Cert × Option GoErr :=
  match store (loadStoreKey cfg domain) with
  | .error e => (none, some e)
  | .ok data => parse data

/-- Outcomes of the collaborators used by
`createAndSaveSelfSignedCertificate`: the key/certificate generation
(`CreateSelfSignedCertificate`, returning certificate PEM and private-key
PEM) and the store put. -/
structure CreateEnv where
  createCert : Except GoErr (List Nat × List Nat)
  put : Option GoErr

/-- What `createAndSaveSelfSignedCertificate` returns and does: its two
return values, and the key passed to `Cfg.Storage.Cache.Put` when the put
was reached. -/
structure CreateResult where
  cert : Option Cert
  err : Option GoErr
  putKey : Option String
deriving DecidableEq

/-- part_000 lines 69-84: `createAndSaveSelfSignedCertificate`.  The cache
blob is the private-key PEM immediately followed by the certificate PEM;
the put goes to `Cfg.SelfSigned.CertKey`; the parse error of the freshly
encoded blob is discarded (line 82: `tlscert, _ := parseCertificate(cacheData)`),
so a failed parse yields a nil certificate with a nil error. -/
def createAndSaveSelfSignedCertificate (cfg : SelfSignedConfig)
    (parse : List Nat → Option Cert × Option GoErr) (env : CreateEnv) : CreateResult :=
  match env.createCert with
  | .error e => { cert := none, err := some e, putKey := none }
  | .ok (certPEM, privKeyPEM) =>
    match env.put with
    | some e =>
      { cert := none, err := some (GoErr.selfSignedWrap e), putKey := some cfg.certKey }
    | none =>
      { cert := (parse (privKeyPEM ++ certPEM)).1, err := none,
        putKey := some cfg.certKey }

/-- What one `GetSelfSignedCertificate` call returns and does: its two
return values, the value of the `selfSignedCert` singleton after the call
(`some p` means the atomic value holds the — possibly nil — certificate
pointer `p`), and whether generation and the store put were reached. -/
structure GetResult where
  cert : Option Cert
  err : Option GoErr
  singleton : Option (Option Cert)
  generationCalled : Bool
  putCalled : Bool
deriving DecidableEq

/-- part_000 lines 39-67: `GetSelfSignedCertificate`.  The fast path and
the double-checked re-read under `selfSignedMu` collapse to one read of
`singleton` in this sequential embedding.  A load error other than
`autocert.ErrCacheMiss` is fatal; a loaded certificate is installed; and
otherwise the call generates, where a nil error installs whatever
certificate pointer generation produced — even a nil one. -/
def GetSelfSignedCertificate (cfg : SelfSignedConfig) (singleton : Option (Option Cert))
    (store : String → Except GoErr (List Nat))
    (parse : List Nat → Option Cert × Option GoErr)
    (env : CreateEnv) (domain : String) : GetResult :=
  match singleton with
  | some p =>
    { cert := p, err := none, singleton := some p,
      generationCalled := false, putCalled := false }
  | none =>
    match loadCertificateFromStore cfg store parse domain with
    | (tlscert, lerr) =>
      if lerr ≠ none ∧ lerr ≠ some GoErr.cacheMiss then
        { cert := none, err := lerr.map GoErr.selfSignedWrap, singleton := none,
          generationCalled := false, putCalled := false }
      else
        match tlscert with
        | some c =>
          { cert := some c, err := none, singleton := some (some c),
            generationCalled := false, putCalled := false }
        | none =>
          match createAndSaveSelfSignedCertificate cfg parse env with
          | { cert := _, err := some e, putKey := pk } =>
            { cert := none, err := some e, singleton := none,
              generationCalled := true, putCalled := pk.isSome }
          | { cert := c, err := none, putKey := pk } =>
            { cert := c, err := none, singleton := some c,
              generationCalled := true, putCalled := pk.isSome }

/-- C4: in the slow path, a store lookup failing with anything other than
the not-found result is fatal — error returned, singleton left unset, no
generation, no store write; a not-found lookup is non-fatal and the call
proceeds to generation. -/
theorem C4_store_error_fatal :
    (∀ (cfg : SelfSignedConfig) (store : String → Except GoErr (List Nat))
      (parse : List Nat → Option Cert × Option GoErr) (env : CreateEnv)
      (domain : String) (e : GoErr),
      loadCertificateFromStore cfg store parse domain = (none, some e) →
      e ≠ GoErr.cacheMiss →
      GetSelfSignedCertificate cfg none store parse env domain =
        { cert := none, err := some (GoErr.selfSignedWrap e), singleton := none,
          generationCalled := false, putCalled := false }) ∧
    (∀ (cfg : SelfSignedConfig) (store : String → Except GoErr (List Nat))
      (parse : List Nat → Option Cert × Option GoErr) (env : CreateEnv)
      (domain : String),
      loadCertificateFromStore cfg store parse domain = (none, some GoErr.cacheMiss) →
      (GetSelfSignedCertificate cfg none store parse env domain).generationCalled = true) := by
  constructor
  · intro cfg store parse env domain e hload he
    unfold GetSelfSignedCertificate
    rw [hload]
    have hcond : ((some e : Option GoErr) ≠ none ∧
        (some e : Option GoErr) ≠ some GoErr.cacheMiss) := ⟨by simp, by simp [he]⟩
    simp [hcond]
  · intro cfg store parse env domain hload
    unfold GetSelfSignedCertificate
    rw [hload]
    cases hcr : createAndSaveSelfSignedCertificate cfg parse env with
    | mk c cerr pk =>
      cases cerr with
      | none => simp [hcr]
      | some e2 => simp [hcr]

/-- An always-failing store, a store holding nothing, and a parse that
always fails: concrete collaborators for the self-signed witnesses. -/
def storeIOFails : String → Except GoErr (List Nat) :=
  fun _ => .error (GoErr.errMsg "io failure")

def storeEmpty : String → Except GoErr (List Nat) :=
  fun _ => .error GoErr.cacheMiss

def parseFails : List Nat → Option Cert × Option GoErr :=
  fun _ => (none, some (GoErr.errMsg "pem parse failed"))

def cfgSS : SelfSignedConfig :=
  { enable := true, checkSNI := false, validDays := 3650,
    organization := ["test"], certKey := "self_signed" }

def envGenOk : CreateEnv := { createCert := .ok ([3], [4]), put := none }

theorem C4_witness :
    (loadCertificateFromStore cfgSS storeIOFails parseFails "example.com" =
        (none, some (GoErr.errMsg "io failure")) ∧
      GoErr.errMsg "io failure" ≠ GoErr.cacheMiss ∧
      GetSelfSignedCertificate cfgSS none storeIOFails parseFails envGenOk "example.com" =
        { cert := none, err := some (GoErr.selfSignedWrap (GoErr.errMsg "io failure")),
          singleton := none, generationCalled := false, putCalled := false }) ∧
    (loadCertificateFromStore cfgSS storeEmpty parseFails "example.com" =
        (none, some GoErr.cacheMiss) ∧
      (GetSelfSignedCertificate cfgSS none storeEmpty parseFails envGenOk
          "example.com").generationCalled = true) :=
  ⟨⟨rfl, by decide,
    C4_store_error_fatal.1 cfgSS storeIOFails parseFails envGenOk "example.com"
      (GoErr.errMsg "io failure") rfl (by decide)⟩,
   ⟨rfl,
    C4_store_error_fatal.2 cfgSS storeEmpty parseFails envGenOk "example.com" rfl⟩⟩

/-- C5: the key the provisioner loads prior material from equals the
configured self-signed cache key, for every requested domain — the same
key `createAndSaveSelfSignedCertificate` writes a freshly generated pair
to. -/
theorem C5_load_and_save_keys_agree :
    (∀ (cfg : SelfSignedConfig) (domain : String), loadStoreKey cfg domain = cfg.certKey) ∧
    (∀ (cfg : SelfSignedConfig) (parse : List Nat → Option Cert × Option GoErr)
      (env : CreateEnv) (pem : List Nat × List Nat),
      env.createCert = .ok pem →
      (createAndSaveSelfSignedCertificate cfg parse env).putKey = some cfg.certKey) := by
  constructor
  · intro cfg domain
    rfl
  · intro cfg parse env pem hok
    unfold createAndSaveSelfSignedCertificate
    rw [hok]
    cases env.put with
    | none => rfl
    | some e => rfl

theorem C5_witness :
    loadStoreKey cfgSS "example.com" = cfgSS.certKey ∧
      envGenOk.createCert = .ok ([3], [4]) ∧
      (createAndSaveSelfSignedCertificate cfgSS parseFails envGenOk).putKey =
        some cfgSS.certKey :=
  ⟨C5_load_and_save_keys_agree.1 cfgSS "example.com", rfl,
    C5_load_and_save_keys_agree.2 cfgSS parseFails envGenOk ([3], [4]) rfl⟩

/-- C9: with an empty store, successful generation and store write, and a
parse of the just-encoded bytes that fails, `GetSelfSignedCertificate`
returns a nil certificate with a nil error, installs that nil pointer as
the singleton, and every subsequent call returns the same nil pair from
the fast path. -/
theorem C9_nil_cert_nil_error :
    (GetSelfSignedCertificate cfgSS none storeEmpty parseFails envGenOk
        "example.com").cert = none ∧
      (GetSelfSignedCertificate cfgSS none storeEmpty parseFails envGenOk
        "example.com").err = none ∧
      (GetSelfSignedCertificate cfgSS none storeEmpty parseFails envGenOk
        "example.com").putCalled = true ∧
      (GetSelfSignedCertificate cfgSS none storeEmpty parseFails envGenOk
        "example.com").singleton = some none ∧
      (GetSelfSignedCertificate cfgSS (some none) storeEmpty parseFails envGenOk
        "example.com").cert = none ∧
      (GetSelfSignedCertificate cfgSS (some none) storeEmpty parseFails envGenOk
        "example.com").err = none := by
  refine ⟨?_, ?_, ?_, ?_, ?_, ?_⟩ <;> decide
